import Mathlib

/-!
Verification of the rsmlc layout resolver.

This file shallowly embeds the data model and the algorithms of the rsmlc
layout engine (`src/base.rs`, `src/style/mod.rs`, `src/style/flex.rs`,
`src/render_tree.rs`) in Lean and proves properties of them.

Machine integers: lengths are stored as `u32` millimeters in the source;
here they are natural numbers, and every arithmetic operation saturates at
`u32Max = 2^32 - 1` exactly as the source's `saturating_add` /
`saturating_sub` / `saturating_mul` do.

Floating point: the position pass of the source converts millimeter values
to `f64` before arithmetic.  It is embedded over `ℚ`; on the inputs treated
in this file every `f64` computation of the source is exact, so the two
semantics agree there.
-/

/-- `u32::MAX`, the saturation bound of all `Length` arithmetic. -/
def u32Max : Nat := 4294967295

/-- `Length` (src/base.rs): millimeters stored as in the source's `u32`. -/
structure Length where
  mm : Nat
deriving DecidableEq, Repr

namespace Length

/-- `Length::from_mm`. -/
def fromMm (n : Nat) : Length := ⟨n⟩

/-- `Length::from_cm` (`cm * 10`). -/
def fromCm (cm : Nat) : Length := ⟨cm * 10⟩

/-- `Length::from_m` (`m * 1000`). -/
def fromM (m : Nat) : Length := ⟨m * 1000⟩

/-- `impl Add for Length`: `saturating_add`. -/
def add (a b : Length) : Length := ⟨min (a.mm + b.mm) u32Max⟩

/-- `impl Sub for Length`: `saturating_sub`; `Nat` subtraction is already
truncated at zero, which is exactly the saturating behaviour. -/
def sub (a b : Length) : Length := ⟨a.mm - b.mm⟩

/-- `impl Mul<u32> for Length`: `saturating_mul`. -/
def mul (a : Length) (k : Nat) : Length := ⟨min (a.mm * k) u32Max⟩

/-- `impl Div<u32> for Length`: division by zero yields `Length(0)`. -/
def div (a : Length) (k : Nat) : Length := if k = 0 then ⟨0⟩ else ⟨a.mm / k⟩

/-- `Ord::max` on `Length` (derived `Ord` compares the millimeter value). -/
def maxLen (a b : Length) : Length := ⟨max a.mm b.mm⟩

/-- `impl fmt::Display for Length` (src/base.rs lines 122-132): the largest
unit that divides the value exactly (`m`, else `cm`, else `mm`). -/
def display (l : Length) : String :=
  if l.mm % 1000 = 0 then Nat.repr (l.mm / 1000) ++ "m"
  else if l.mm % 10 = 0 then Nat.repr (l.mm / 10) ++ "cm"
  else Nat.repr l.mm ++ "mm"

end Length

/-- `Percentage` (src/base.rs): a `u32`, 0-100 when built by the parser. -/
structure Percentage where
  val : Nat
deriving DecidableEq, Repr

/-- `Dim3<T>` (src/dim3.rs). -/
structure Dim3 (α : Type) where
  x : α
  y : α
  z : α
deriving DecidableEq, Repr

/-- `RsmlError` (src/error.rs), restricted to the variants the resolver
raises; the `String` fields carry the formatted message text. -/
inductive RsmlError where
  | parseError (field message : String)
  | renderTree (message : String)
  | cubeSizeError
  | packageConfigError (message : String)
deriving DecidableEq, Repr

/-- `SizeValue` (src/style/mod.rs). -/
inductive SizeValue where
  | length (l : Length)
  | percentage (p : Percentage)
  | auto
deriving DecidableEq, Repr

namespace SizeValue

/-- `SizeValue::is_length`. -/
def isLength : SizeValue → Bool
  | .length _ => true
  | _ => false

/-- `SizeValue::assign_priority` (src/style/mod.rs lines 110-116), written
functionally: the source mutates `self`; here the updated value is returned.
A `Length` always overwrites; a `Percentage` overwrites unless the target is
a `Length`; `Auto` never overwrites. -/
def assignPriority (self other : SizeValue) : SizeValue :=
  match other with
  | .length _ => other
  | .percentage _ =>
    match self with
    | .length _ => self
    | _ => other
  | .auto => self

/-- `SizeValue::add` (src/style/mod.rs lines 118-126): adds only when both
sides are `Length`; otherwise `self` is unchanged. -/
def addSV (self other : SizeValue) : SizeValue :=
  match self with
  | .length sl =>
    match other with
    | .length ol => .length (sl.add ol)
    | _ => self
  | _ => self

/-- `SizeValue::max` (src/style/mod.rs lines 128-136). -/
def maxSV (self other : SizeValue) : SizeValue :=
  match self with
  | .length sl =>
    match other with
    | .length ol => .length (sl.maxLen ol)
    | _ => self
  | _ => self

end SizeValue

/-- `PositionValue` (src/style/mod.rs). -/
inductive PositionValue where
  | length (l : Length)
  | auto
deriving DecidableEq, Repr

/-- `Display` (src/style/mod.rs). -/
inductive Display where
  | flex
  | cube
deriving DecidableEq, Repr

/-- `FlexDirection` (src/style/flex.rs). -/
inductive FlexDirection where
  | x
  | y
  | z
  | reverseX
  | reverseY
  | reverseZ
deriving DecidableEq, Repr

/-- `JustifyContent` (src/style/flex.rs). -/
inductive JustifyContent where
  | flexStart
  | flexEnd
  | center
  | spaceBetween
  | spaceAround
  | spaceEvenly
deriving DecidableEq, Repr

/-- `AlignItem` (src/style/flex.rs). -/
inductive AlignItem where
  | flexStart
  | flexEnd
  | center
deriving DecidableEq, Repr

/-- `AlignItems` (src/style/flex.rs): one alignment per cross axis. -/
structure AlignItems where
  cross1 : AlignItem
  cross2 : AlignItem
deriving DecidableEq, Repr

/-- `FlexBasis` (src/style/flex.rs). -/
inductive FlexBasis where
  | length (l : Length)
  | percentage (p : Percentage)
  | auto
deriving DecidableEq, Repr

/-- `SpaceSize` (src/style/mod.rs): per-axis size values. -/
structure SpaceSize where
  x : SizeValue
  y : SizeValue
  z : SizeValue
deriving DecidableEq, Repr

namespace SpaceSize

/-- `SpaceSize::new`. -/
def new (x y z : SizeValue) : SpaceSize := ⟨x, y, z⟩

/-- `SpaceSize::from_dim3_length`. -/
def fromDim3Length (d : Dim3 Length) : SpaceSize :=
  ⟨.length d.x, .length d.y, .length d.z⟩

/-- `SpaceSize::assign_priority`: componentwise merge. -/
def assignPriority (self other : SpaceSize) : SpaceSize :=
  ⟨self.x.assignPriority other.x, self.y.assignPriority other.y,
   self.z.assignPriority other.z⟩

/-- `SpaceSize::has_auto`. -/
def hasAuto (s : SpaceSize) : Bool :=
  s.x = SizeValue.auto || s.y = SizeValue.auto || s.z = SizeValue.auto

/-- `SpaceSize::all_length`. -/
def allLength (s : SpaceSize) : Bool :=
  s.x.isLength && s.y.isLength && s.z.isLength

/-- `SpaceSize::create_self_by_auto_to_zero`: each `Auto` axis becomes
`Length(0)` (the source writes `Length::from_cm(0)`, also zero). -/
def createSelfByAutoToZero (s : SpaceSize) : SpaceSize :=
  ⟨if s.x = SizeValue.auto then .length (Length.fromCm 0) else s.x,
   if s.y = SizeValue.auto then .length (Length.fromCm 0) else s.y,
   if s.z = SizeValue.auto then .length (Length.fromCm 0) else s.z⟩

/-- `SpaceSize::get_length`: all three axes as `Length`, if concrete. -/
def getLength (s : SpaceSize) : Option (Dim3 Length) :=
  match s.x, s.y, s.z with
  | .length a, .length b, .length c => some ⟨a, b, c⟩
  | _, _, _ => none

end SpaceSize

/-- `SpacePosition` (src/style/mod.rs). -/
structure SpacePosition where
  x : PositionValue
  y : PositionValue
  z : PositionValue
deriving DecidableEq, Repr

/-- `FlexBasis::to_space_size` (src/style/flex.rs lines 50-64): project the
basis onto the axis of the flex direction, the other axes are `Auto`. -/
def FlexBasis.toSpaceSize (b : FlexBasis) (dir : FlexDirection) : SpaceSize :=
  let v : SizeValue :=
    match b with
    | .length l => .length l
    | .percentage p => .percentage p
    | .auto => .auto
  match dir with
  | .x | .reverseX => ⟨v, .auto, .auto⟩
  | .y | .reverseY => ⟨.auto, v, .auto⟩
  | .z | .reverseZ => ⟨.auto, .auto, v⟩

/-- `Style` (src/style/mod.rs). -/
structure Style where
  size : SpaceSize
  display : Display
  justifyContent : JustifyContent
  alignItems : AlignItems
  flexDirection : FlexDirection
  position : SpacePosition
  flexBasis : FlexBasis
deriving DecidableEq, Repr

/-- `Style::default` (src/style/mod.rs lines 357-369): auto sizes, flex
display, flex-start everywhere, `ReverseZ` direction, auto positions. -/
def Style.default : Style :=
  ⟨⟨.auto, .auto, .auto⟩, .flex, .flexStart, ⟨.flexStart, .flexStart⟩,
   .reverseZ, ⟨.auto, .auto, .auto⟩, .auto⟩

/-- `RenderNodeType` (src/render_tree.rs). -/
inductive RenderNodeType where
  | space
  | item
deriving DecidableEq, Repr

/-- The three spatial axes, used to speak about "the axis matching the flex
direction" uniformly. -/
inductive Axis where
  | x
  | y
  | z
deriving DecidableEq, Repr

/-- The main axis of a flex direction, forward and reverse alike. -/
def FlexDirection.axis : FlexDirection → Axis
  | .x | .reverseX => .x
  | .y | .reverseY => .y
  | .z | .reverseZ => .z

/-- Component of a `SpaceSize` on a given axis. -/
def SpaceSize.onAxis (s : SpaceSize) : Axis → SizeValue
  | .x => s.x
  | .y => s.y
  | .z => s.z

/-- Component of a `Dim3` on a given axis. -/
def Dim3.onAxis {α : Type} (d : Dim3 α) : Axis → α
  | .x => d.x
  | .y => d.y
  | .z => d.z

/-- `RenderTree::calculate_dimension_size` (src/render_tree.rs lines
234-250): top-down per-axis resolution of a size value against the parent's
value on the same axis. -/
def calculateDimensionSize (sizeValue parentSizeValue : SizeValue) : SizeValue :=
  match sizeValue with
  | .length l => .length l
  | .percentage p =>
    match parentSizeValue with
    | .length parentLen => .length ((parentLen.mul p.val).div 100)
    | _ => .auto
  | .auto => .auto

/-! ### String parsing (src/base.rs `FromStr`, src/style parsing)

The source parses the numeric prefix of a length with Rust's `f64` parser
and converts with `as u32` (truncation toward zero).  The numeric prefix can
only contain ASCII digits and dots, so its value is an exact non-negative
decimal; it is modelled here by exact rational arithmetic over naturals
(`n / 10^k`), which agrees with `f64` whenever the `f64` computation is
exact — in particular on every input considered in this file. -/

/-- Rust `str::trim` on a character list. -/
def trimChars (cs : List Char) : List Char :=
  ((cs.dropWhile Char.isWhitespace).reverse.dropWhile Char.isWhitespace).reverse

/-- Rust `str::to_lowercase` (ASCII suffices for the inputs involved). -/
def toLowerChars (cs : List Char) : List Char :=
  cs.map Char.toLower

/-- Rust `str::split(sep)`: like the source's `split`, an empty input gives
one empty segment, and adjacent separators give empty segments. -/
def splitOnCharList (sep : Char) (cs : List Char) : List (List Char) :=
  cs.foldr
    (fun c acc =>
      if c = sep then [] :: acc
      else
        match acc with
        | [] => [[c]]
        | w :: ws => (c :: w) :: ws)
    [[]]

/-- Rust `str::split_whitespace`: split on whitespace runs, no empty
segments. -/
def splitWhitespaceChars (cs : List Char) : List (List Char) :=
  (cs.foldr
    (fun c acc =>
      if c.isWhitespace then [] :: acc
      else
        match acc with
        | [] => [[c]]
        | w :: ws => (c :: w) :: ws)
    []).filter (· ≠ [])

/-- Decimal digits to their value. -/
def natOfDigits (cs : List Char) : Nat :=
  cs.foldl (fun a c => a * 10 + (c.toNat - 48)) 0

/-- Rust `f64` parsing of a string made of digits and dots only, returned as
the exact rational `n / 10^k` (numerator and fractional digit count).
Accepts `"5"`, `"5."`, `".5"`; rejects `""`, `"."`, and more than one dot,
exactly as Rust's float parser does on such strings. -/
def decToRat (cs : List Char) : Option (Nat × Nat) :=
  match splitOnCharList '.' cs with
  | [ip] =>
    if ip ≠ [] && ip.all Char.isDigit then some (natOfDigits ip, 0) else none
  | [ip, fp] =>
    if (ip ++ fp) ≠ [] && (ip ++ fp).all Char.isDigit then
      some (natOfDigits ip * 10 ^ fp.length + natOfDigits fp, fp.length)
    else none
  | _ => none

/-- `impl FromStr for Length` (src/base.rs lines 140-197).  The source's
negativity check (`mm_value < 0.0`) cannot trigger because the numeric
prefix holds only digits and dots; the other checks are translated one by
one.  `n * mult / 10^k` in ℕ is truncation toward zero, as `as u32` is for
the non-negative values here. -/
def Length.fromChars (cs : List Char) : Except RsmlError Length :=
  let s := trimChars cs
  if s = [] then .error (.parseError "Length" "Empty string")
  else
    let isNumChar : Char → Bool := fun c => c.isDigit || c = '.'
    let numberStr := s.takeWhile isNumChar
    let unitChars := s.dropWhile isNumChar
    match decToRat numberStr with
    | none =>
      .error (.parseError "Length" ("Invalid number: " ++ String.mk numberStr))
    | some (n, k) =>
      let unitStr := toLowerChars (unitChars.dropWhile Char.isWhitespace)
      let multOpt : Option Nat :=
        if unitStr = "mm".toList then some 1
        else if unitStr = "cm".toList then some 10
        else if unitStr = "m".toList then some 1000
        else if unitStr = [] then some 1
        else none
      match multOpt with
      | none =>
        .error (.parseError "Length" ("Unknown unit: " ++ String.mk unitStr))
      | some mult =>
        if u32Max * 10 ^ k < n * mult then
          .error (.parseError "Length" "Length value too large")
        else .ok ⟨n * mult / 10 ^ k⟩

/-- `impl FromStr for Length` on a `String`. -/
def Length.fromStr (s : String) : Except RsmlError Length :=
  Length.fromChars s.toList

/-- `impl FromStr for Percentage` (src/base.rs lines 283-318): must end in
`%`, the number parses as `u32` (digits only, within range), and must not
exceed 100. -/
def Percentage.fromChars (cs : List Char) : Except RsmlError Percentage :=
  let s := trimChars cs
  if s = [] then .error (.parseError "Percentage" "Empty string")
  else if s.getLast? ≠ some '%' then
    .error (.parseError "Percentage" "Percentage must end with %")
  else
    let numberStr := s.dropLast
    if numberStr ≠ [] && numberStr.all Char.isDigit &&
        natOfDigits numberStr ≤ u32Max then
      let n := natOfDigits numberStr
      if 100 < n then
        .error (.parseError "Percentage" "Percentage cannot be greater than 100%")
      else .ok ⟨n⟩
    else
      .error (.parseError "Percentage" ("Invalid number: " ++ String.mk numberStr))

/-- Error message used when style-layer parsing wraps a unit-layer error
(the source uses `anyhow` with the formatted message). -/
def rsmlErrorMessage : RsmlError → String
  | .parseError field message => "Parse error for " ++ field ++ ": " ++ message
  | .renderTree message => "Render tree error: " ++ message
  | .cubeSizeError => "Cube display must explicit set size: length(mm/cm) or percentage(%)"
  | .packageConfigError message => "package config error: " ++ message

/-- `impl FromStr for SizeValue` (src/style/mod.rs lines 25-38). -/
def SizeValue.fromChars (cs : List Char) : Except String SizeValue :=
  let s := toLowerChars (trimChars cs)
  if s = "auto".toList then .ok .auto
  else if s.getLast? = some '%' then
    match Percentage.fromChars s with
    | .ok p => .ok (.percentage p)
    | .error e => .error (rsmlErrorMessage e)
  else
    match Length.fromChars s with
    | .ok l => .ok (.length l)
    | .error e => .error (rsmlErrorMessage e)

/-- `impl FromStr for PositionValue` (src/style/mod.rs lines 80-90). -/
def PositionValue.fromChars (cs : List Char) : Except String PositionValue :=
  let s := toLowerChars (trimChars cs)
  if s = "auto".toList then .ok .auto
  else
    match Length.fromChars s with
    | .ok l => .ok (.length l)
    | .error e => .error (rsmlErrorMessage e)

/-- `impl FromStr for Display` (src/style/mod.rs lines 240-250). -/
def Display.fromChars (cs : List Char) : Except String Display :=
  let s := toLowerChars (trimChars cs)
  if s = "flex".toList then .ok .flex
  else if s = "cube".toList then .ok .cube
  else .error ("Invalid display value: " ++ String.mk cs)

/-- `impl FromStr for JustifyContent` (src/style/flex.rs lines 138-152). -/
def JustifyContent.fromChars (cs : List Char) : Except String JustifyContent :=
  let s := toLowerChars (trimChars cs)
  if s = "flex-start".toList then .ok .flexStart
  else if s = "flex-end".toList then .ok .flexEnd
  else if s = "center".toList then .ok .center
  else if s = "space-between".toList then .ok .spaceBetween
  else if s = "space-around".toList then .ok .spaceAround
  else if s = "space-evenly".toList then .ok .spaceEvenly
  else .error ("Invalid justify-content value: " ++ String.mk cs)

/-- `impl FromStr for AlignItem` (src/style/flex.rs lines 75-86). -/
def AlignItem.fromChars (cs : List Char) : Except String AlignItem :=
  let s := toLowerChars (trimChars cs)
  if s = "flex-start".toList then .ok .flexStart
  else if s = "flex-end".toList then .ok .flexEnd
  else if s = "center".toList then .ok .center
  else .error ("Invalid align-item value: " ++ String.mk cs)

/-- `impl FromStr for AlignItems` (src/style/flex.rs lines 104-119): exactly
two whitespace-separated alignment keywords. -/
def AlignItems.fromChars (cs : List Char) : Except String AlignItems :=
  match splitWhitespaceChars (trimChars cs) with
  | [a, b] => do
    let cross1 ← AlignItem.fromChars a
    let cross2 ← AlignItem.fromChars b
    .ok ⟨cross1, cross2⟩
  | _ => .error "align-items must have exactly 2 values (cross1 cross2)"

/-- `impl FromStr for FlexDirection` (src/style/flex.rs lines 171-185). -/
def FlexDirection.fromChars (cs : List Char) : Except String FlexDirection :=
  let s := toLowerChars (trimChars cs)
  if s = "x".toList then .ok .x
  else if s = "y".toList then .ok .y
  else if s = "z".toList then .ok .z
  else if s = "x-reverse".toList then .ok .reverseX
  else if s = "y-reverse".toList then .ok .reverseY
  else if s = "z-reverse".toList then .ok .reverseZ
  else .error ("Invalid flex-direction value: " ++ String.mk cs)

/-- `impl FromStr for FlexBasis` (src/style/flex.rs lines 20-44). -/
def FlexBasis.fromChars (cs : List Char) : Except String FlexBasis :=
  let s := toLowerChars (trimChars cs)
  if s = "auto".toList then .ok .auto
  else if s.getLast? = some '%' then
    match Percentage.fromChars s with
    | .ok p => .ok (.percentage p)
    | .error e => .error ("Invalid percentage value: " ++ rsmlErrorMessage e)
  else
    match Length.fromChars s with
    | .ok l => .ok (.length l)
    | .error e => .error ("Invalid flex-basis value: " ++ rsmlErrorMessage e)

/-- One `property:value` declaration applied to a style under construction
(the body of the loop of `Style::from_style_string`, src/style/mod.rs lines
413-475).  Unknown properties are skipped; a declaration without exactly one
`:` fails the whole string. -/
def applyDeclaration (style : Style) (decl : List Char) : Except String Style :=
  let d := trimChars decl
  if d = [] then .ok style
  else
    match splitOnCharList ':' d with
    | [p, v] =>
      let property := trimChars p
      let value := trimChars v
      if property = "size".toList then
        match splitWhitespaceChars value with
        | [a, b, c] => do
          let x ← SizeValue.fromChars a
          let y ← SizeValue.fromChars b
          let z ← SizeValue.fromChars c
          .ok { style with size := SpaceSize.new x y z }
        | _ => .error "Size must have exactly 3 values (x, y, z)"
      else if property = "display".toList then do
        let dis ← Display.fromChars value
        .ok { style with display := dis }
      else if property = "justify-content".toList then do
        let jc ← JustifyContent.fromChars value
        .ok { style with justifyContent := jc }
      else if property = "align-items".toList then do
        let ai ← AlignItems.fromChars value
        .ok { style with alignItems := ai }
      else if property = "flex-direction".toList then do
        let fd ← FlexDirection.fromChars value
        .ok { style with flexDirection := fd }
      else if property = "pos".toList then
        match splitWhitespaceChars value with
        | [a, b, c] => do
          let x ← PositionValue.fromChars a
          let y ← PositionValue.fromChars b
          let z ← PositionValue.fromChars c
          .ok { style with position := SpacePosition.mk x y z }
        | _ => .error "Position must have exactly 3 values (x, y, z)"
      else if property = "flex-basis".toList then do
        let fb ← FlexBasis.fromChars value
        .ok { style with flexBasis := fb }
      else .ok style
    | _ => .error ("Invalid style declaration: " ++ String.mk d)

/-- `Style::from_style_string` (src/style/mod.rs lines 409-478). -/
def Style.fromStyleString (s : String) : Except String Style :=
  (splitOnCharList ';' s.toList).foldlM applyDeclaration Style.default

/-! ### Render tree (src/render_tree.rs)

The source stores nodes in `Rc<RefCell<..>>` cells with weak parent links
and mutates them in place; here the tree is a pure inductive value and each
pass returns the updated tree.  A node's parent is not stored: every
function that reads the parent in the source receives the parent's data
(computed size, specified display, specified flex direction) as arguments.
Of `computed_style` only the `size` field is ever read or written by the
resolution passes, so only that field is carried. -/

/-- `Element` (src/xml_parser.rs): the external DOM element consumed by tree
construction; attributes as association list. -/
inductive Element where
  | mk (name : String) (attributes : List (String × String)) (text : String)
       (children : List Element)

/-- `Element::get_attribute`. -/
def getAttr (attrs : List (String × String)) (k : String) : Option String :=
  (attrs.find? (fun p => p.1 = k)).map (·.2)

/-- `RenderNode` (src/render_tree.rs): node kind, id, tag, text content,
specified style, computed size, children. -/
inductive RNode where
  | mk (nodeType : RenderNodeType) (id : Option String) (tagName : String)
       (textContent : String) (specified : Style) (computedSize : SpaceSize)
       (children : List RNode)

/-- The node's computed size (`computed_style.size`). -/
def RNode.computedSize : RNode → SpaceSize
  | .mk _ _ _ _ _ c _ => c

/-- The node's specified style. -/
def RNode.specified : RNode → Style
  | .mk _ _ _ _ s _ _ => s

/-- The node's kind. -/
def RNode.nodeType : RNode → RenderNodeType
  | .mk t _ _ _ _ _ _ => t

/-- The node's children. -/
def RNode.children : RNode → List RNode
  | .mk _ _ _ _ _ _ cs => cs

/-- Replace the node's computed size (the seeding step of
`RenderTree::calculate`, lines 117-124). -/
def RNode.setComputedSize : RNode → SpaceSize → RNode
  | .mk t i tag txt spec _ cs, sz => .mk t i tag txt spec sz cs

/-- `determine_node_type` (src/render_tree.rs lines 631-636). -/
def determineNodeType (tagName : String) : RenderNodeType :=
  if toLowerChars tagName.toList = "object".toList ||
      toLowerChars tagName.toList = "group".toList then .item
  else .space

/-- Default declarations injected for `Space` nodes. -/
def spaceStyleStr : String := "display:flex;flex-direction:z-reverse"

/-- Default declarations injected for `Item` nodes. -/
def itemStyleStr : String := "display:flex"

/-- Declarations injected for the `body` element (replacing its own `style`
attribute), src/render_tree.rs line 167. -/
def bodyStyleStr : String := "display:flex;flex-direction:z-reverse;size:10m 10m 10m"

mutual

/-- `RenderTree::build_node_recursive` (src/render_tree.rs lines 154-198):
classify the tag, pick the style string (the body element's own attribute is
replaced by `bodyStyleStr`, every node gets the kind default prepended),
parse it, and fall back to the default style if parsing fails. -/
def buildNodeRecursive : Element → RNode
  | .mk name attrs text children =>
    let t := determineNodeType name
    let styleAttr := (getAttr attrs "style").getD ""
    let style1 := if name = "body" then bodyStyleStr else styleAttr
    let style2 :=
      match t with
      | .space => spaceStyleStr ++ ";" ++ style1
      | .item => itemStyleStr ++ ";" ++ style1
    let spec :=
      match Style.fromStyleString style2 with
      | .ok st => st
      | .error _ => Style.default
    .mk t (getAttr attrs "id") name (String.mk (trimChars text.toList)) spec
      Style.default.size
      (buildNodeList children)

/-- `build_node_recursive` over a child list. -/
def buildNodeList : List Element → List RNode
  | [] => []
  | e :: es => buildNodeRecursive e :: buildNodeList es

end

/-- The per-node computation of the top-down pass
(`calculate_size_by_parent_recursive`, src/render_tree.rs lines 252-288,
before the recursion into children): resolve the specified size against the
parent's computed size and merge; then, when the parent displays `Flex`,
resolve the flex-basis (projected on the parent's flex axis) against the
node's own specified size and merge again. -/
def calculateSizeByParentStep (pSize : SpaceSize) (pDisplay : Display)
    (pDir : FlexDirection) (spec : Style) (computed : SpaceSize) : SpaceSize :=
  let size := spec.size
  let newSize := SpaceSize.new (calculateDimensionSize size.x pSize.x)
    (calculateDimensionSize size.y pSize.y) (calculateDimensionSize size.z pSize.z)
  let comp1 := computed.assignPriority newSize
  match pDisplay with
  | .flex =>
    let basisSize := spec.flexBasis.toSpaceSize pDir
    let newSize2 := SpaceSize.new (calculateDimensionSize basisSize.x size.x)
      (calculateDimensionSize basisSize.y size.y)
      (calculateDimensionSize basisSize.z size.z)
    comp1.assignPriority newSize2
  | .cube => comp1

mutual

/-- `calculate_size_by_parent_recursive` (Pass 1 and Pass 3): compute the
current node from the parent's data, then recurse into the children, which
read this node's just-computed size and its specified display and flex
direction. -/
def calculateSizeByParentRecursive (pSize : SpaceSize) (pDisplay : Display)
    (pDir : FlexDirection) : RNode → RNode
  | .mk t i tag txt spec comp cs =>
    let comp' := calculateSizeByParentStep pSize pDisplay pDir spec comp
    .mk t i tag txt spec comp'
      (calculateSizeByParentList comp' spec.display spec.flexDirection cs)

/-- `calculate_size_by_parent_recursive` over a child list. -/
def calculateSizeByParentList (pSize : SpaceSize) (pDisplay : Display)
    (pDir : FlexDirection) : List RNode → List RNode
  | [] => []
  | c :: cs =>
    calculateSizeByParentRecursive pSize pDisplay pDir c ::
      calculateSizeByParentList pSize pDisplay pDir cs

end

/-- The loop body of `cal_flex_child_size` (src/render_tree.rs lines
209-228): fold one child's computed size into the running total, `add` on
the axis of the flex direction (forward and reverse alike), `max` on the two
others. -/
def flexFoldStep (dir : FlexDirection) (total cs : SpaceSize) : SpaceSize :=
  match dir with
  | .x | .reverseX => ⟨total.x.addSV cs.x, total.y.maxSV cs.y, total.z.maxSV cs.z⟩
  | .y | .reverseY => ⟨total.x.maxSV cs.x, total.y.addSV cs.y, total.z.maxSV cs.z⟩
  | .z | .reverseZ => ⟨total.x.maxSV cs.x, total.y.maxSV cs.y, total.z.addSV cs.z⟩

/-- `RenderTree::cal_flex_child_size` (src/render_tree.rs lines 199-232):
start from the node's specified size with `Auto` axes floored to zero, then
fold the children's computed sizes in with `flexFoldStep`. -/
def calFlexChildSize (spec : Style) (children : List RNode) : SpaceSize :=
  children.foldl
    (fun total child => flexFoldStep spec.flexDirection total child.computedSize)
    spec.size.createSelfByAutoToZero

/-- The per-node computation of the bottom-up pass
(`calculate_size_by_child_recursive`, src/render_tree.rs lines 302-329,
after the children were processed): an `Item` takes the catalogue size; a
`Flex` space folds its children in unless already fully `Length`; a `Cube`
space fails when an `Auto` axis remains, else is left untouched. -/
def calculateSizeByChildStep (pkg : String → Except RsmlError (Dim3 Length))
    (t : RenderNodeType) (textContent : String) (spec : Style)
    (computed : SpaceSize) (children : List RNode) :
    Except RsmlError SpaceSize :=
  match t with
  | .item =>
    match pkg textContent with
    | .ok d => .ok (SpaceSize.fromDim3Length d)
    | .error e => .error e
  | .space =>
    match spec.display with
    | .flex =>
      if !computed.allLength then
        .ok (computed.assignPriority (calFlexChildSize spec children))
      else .ok computed
    | .cube =>
      if computed.hasAuto then .error .cubeSizeError else .ok computed

mutual

/-- `calculate_size_by_child_recursive` (Pass 2): children first, then the
node itself. -/
def calculateSizeByChildRecursive
    (pkg : String → Except RsmlError (Dim3 Length)) :
    RNode → Except RsmlError RNode
  | .mk t i tag txt spec comp cs =>
    match calculateSizeByChildList pkg cs with
    | .error e => .error e
    | .ok cs' =>
      match calculateSizeByChildStep pkg t txt spec comp cs' with
      | .error e => .error e
      | .ok comp' => .ok (.mk t i tag txt spec comp' cs')

/-- `calculate_size_by_child_recursive` over a child list. -/
def calculateSizeByChildList
    (pkg : String → Except RsmlError (Dim3 Length)) :
    List RNode → Except RsmlError (List RNode)
  | [] => .ok []
  | c :: cs =>
    match calculateSizeByChildRecursive pkg c with
    | .error e => .error e
    | .ok c' =>
      match calculateSizeByChildList pkg cs with
      | .error e => .error e
      | .ok cs' => .ok (c' :: cs')

end

/-- The seed size injected by `RenderTree::calculate` (lines 117-124):
`Length::from_m(100)` on all three axes. -/
def hundredMeters : SizeValue := .length (Length.fromM 100)

/-- The three size passes of `RenderTree::calculate` (src/render_tree.rs
lines 114-133), run from the body node: seed the body's computed size with
100m on each axis, then Pass 1 (top-down), Pass 2 (bottom-up), Pass 3 (the
top-down pass again).  The body's parent, required by the top-down pass, is
supplied as its computed size, specified display and specified flex
direction.  The position pass that follows in the source is not part of
size resolution. -/
def resolveSizesFromBody (pkg : String → Except RsmlError (Dim3 Length))
    (pSize : SpaceSize) (pDisplay : Display) (pDir : FlexDirection)
    (body : RNode) : Except RsmlError RNode :=
  let seeded := body.setComputedSize ⟨hundredMeters, hundredMeters, hundredMeters⟩
  let b1 := calculateSizeByParentRecursive pSize pDisplay pDir seeded
  match calculateSizeByChildRecursive pkg b1 with
  | .error e => .error e
  | .ok b2 => .ok (calculateSizeByParentRecursive pSize pDisplay pDir b2)

/-! ### Main-axis placement (src/render_tree.rs lines 554-622)

The source computes positions in `f64` from millimeter values.  The
embedding uses `ℚ`; on every input appearing below the `f64` arithmetic of
the source is exact, so the two agree.  (`ℚ` division by zero yields 0 where
`f64` yields an infinity; that case arises only for `space-around` with an
empty child list, which is not used here.) -/

/-- One placement loop of `calculate_positions_on_axis`: push the current
position, then advance by the child's size plus the gap. -/
def layoutFrom (start gap : ℚ) : List ℚ → List ℚ
  | [] => []
  | s :: rest => start :: layoutFrom (start + s + gap) gap rest

/-- `RenderTree::calculate_positions_on_axis` (src/render_tree.rs lines
554-622): positions of the children along the main axis given the free
space and the list of child extents. -/
def calculatePositionsOnAxis (freeSpace : ℚ) (childSizes : List ℚ)
    (justifyContent : JustifyContent) : List ℚ :=
  match justifyContent with
  | .flexStart => layoutFrom 0 0 childSizes
  | .flexEnd => layoutFrom freeSpace 0 childSizes
  | .center => layoutFrom (freeSpace / 2) 0 childSizes
  | .spaceBetween =>
    if 1 < childSizes.length then
      layoutFrom 0 (freeSpace / ((childSizes.length - 1 : ℕ) : ℚ)) childSizes
    else [freeSpace / 2]
  | .spaceAround =>
    let spacing := freeSpace / (childSizes.length : ℚ)
    layoutFrom (spacing / 2) spacing childSizes
  | .spaceEvenly =>
    let spacing := freeSpace / ((childSizes.length : ℚ) + 1)
    layoutFrom spacing spacing childSizes

/-- The free space on the main axis (`calculate_flex_child_positions`,
src/render_tree.rs line 396 and analogues): container extent minus the sum
of the child extents. -/
def mainAxisFreeSpace (container : ℚ) (childSizes : List ℚ) : ℚ :=
  container - childSizes.sum

/-- Main-axis placement for a container extent: the free space is computed
and handed to `calculatePositionsOnAxis` exactly as in
`calculate_flex_child_positions`. -/
def mainAxisPositions (container : ℚ) (childSizes : List ℚ)
    (justifyContent : JustifyContent) : List ℚ :=
  calculatePositionsOnAxis (mainAxisFreeSpace container childSizes)
    childSizes justifyContent

/-! ### Auxiliary definitions for the statements -/

/-- A package lookup with no entries: every name fails, as
`Package::get_space_size` does for an unknown name. -/
def pkgNone : String → Except RsmlError (Dim3 Length) :=
  fun n => .error (.packageConfigError ("can not find object or group " ++ n))

/-- What the flex-basis merge of the top-down step leaves on the parent's
main axis when the node's specified size there is `Length L`: an `Auto`
basis keeps `L`, a `Length` basis replaces it, a `Percentage` basis resolves
against `L` itself and replaces it. -/
def flexBasisResolved : FlexBasis → Length → SizeValue
  | .auto, l => .length l
  | .length b, _ => .length b
  | .percentage p, l => .length ((l.mul p.val).div 100)

/-- The specified style every constructed `body` node carries: the parse of
`spaceStyleStr ++ ";" ++ bodyStyleStr` (the body's own `style` attribute is
discarded by `build_node_recursive`): flex display, `z-reverse` direction,
and a 10m x 10m x 10m size. -/
def bodySpecStyle : Style :=
  ⟨⟨.length ⟨10000⟩, .length ⟨10000⟩, .length ⟨10000⟩⟩, .flex, .flexStart,
   ⟨.flexStart, .flexStart⟩, .reverseZ, ⟨.auto, .auto, .auto⟩, .auto⟩

/-- The 10m x 10m x 10m computed size. -/
def tenMetersCube : SpaceSize :=
  ⟨.length (Length.fromM 10), .length (Length.fromM 10), .length (Length.fromM 10)⟩

/-! ### Theorems -/

/-- C5: the priority merge on `SizeValue`: merging `Length(L)` into any
value yields `Length(L)`; merging `Auto` never changes the target; merging a
`Percentage` into a `Length` leaves the `Length`, and into a `Percentage` or
`Auto` replaces the target. -/
theorem sizeValue_assignPriority_spec :
    (∀ (sv : SizeValue) (l : Length),
        sv.assignPriority (.length l) = .length l) ∧
    (∀ sv : SizeValue, sv.assignPriority .auto = sv) ∧
    (∀ (l : Length) (p : Percentage),
        (SizeValue.length l).assignPriority (.percentage p) = .length l) ∧
    (∀ p q : Percentage,
        (SizeValue.percentage q).assignPriority (.percentage p) = .percentage p) ∧
    (∀ p : Percentage,
        SizeValue.auto.assignPriority (.percentage p) = .percentage p) := by
  refine ⟨fun sv l => by cases sv <;> rfl, fun sv => by cases sv <;> rfl,
    fun l p => rfl, fun p q => rfl, fun p => rfl⟩

/-- C4, counterexample: resolving `Percentage(100)` against a parent of
`u32::MAX` millimeters does not give `parent_len * p / 100` — the
multiplication saturates first, so the result is `42949672` millimeters, not
`u32::MAX`. -/
theorem calculateDimensionSize_counterexample :
    calculateDimensionSize (.percentage ⟨100⟩) (.length ⟨u32Max⟩) =
      .length ⟨42949672⟩ ∧
    (42949672 : Nat) ≠ u32Max * 100 / 100 := by
  exact ⟨rfl, by decide⟩

/-- C4, amended: per-axis top-down resolution: a `Length` is returned
unchanged; `Percentage(p)` against a parent `Length(pl)` yields
`Length(min(pl * p, u32::MAX) / 100)` — the saturating multiply, then
truncating division — which equals `pl * p / 100` whenever `pl * p` does not
exceed `u32::MAX`; `Percentage` against a non-`Length` parent yields `Auto`;
`Auto` yields `Auto`.  The two examples of the spec hold. -/
theorem calculateDimensionSize_spec :
    (∀ (l : Length) (psv : SizeValue),
        calculateDimensionSize (.length l) psv = .length l) ∧
    (∀ (p : Percentage) (pl : Length),
        calculateDimensionSize (.percentage p) (.length pl) =
          .length ⟨min (pl.mm * p.val) u32Max / 100⟩) ∧
    (∀ p : Percentage, calculateDimensionSize (.percentage p) .auto = .auto) ∧
    (∀ (p q : Percentage),
        calculateDimensionSize (.percentage p) (.percentage q) = .auto) ∧
    (∀ psv : SizeValue, calculateDimensionSize .auto psv = .auto) ∧
    calculateDimensionSize (.percentage ⟨50⟩) (.length (Length.fromMm 200)) =
      .length (Length.fromMm 100) ∧
    calculateDimensionSize (.percentage ⟨50⟩) .auto = .auto := by
  refine ⟨fun l psv => rfl, fun p pl => rfl, fun p => rfl, fun p q => rfl,
    fun psv => rfl, by decide, rfl⟩

/-- C9: `Length` arithmetic saturates: addition is `min(a + b, u32::MAX)`,
subtraction is `a - b` floored at zero (stated over `ℤ` so the flooring is
visible), and multiplication by a scalar is `min(a * k, u32::MAX)`. -/
theorem length_arithmetic_saturates :
    (∀ a b : Length, a.add b = ⟨min (a.mm + b.mm) u32Max⟩) ∧
    (∀ a b : Length, ((a.sub b).mm : ℤ) = max ((a.mm : ℤ) - (b.mm : ℤ)) 0) ∧
    (∀ (a : Length) (k : Nat), a.mul k = ⟨min (a.mm * k) u32Max⟩) := by
  refine ⟨fun a b => rfl, fun a b => ?_, fun a k => rfl⟩
  simp only [Length.sub]
  omega

/-- C8, counterexample: `Length::from_cm(150)` is 1500 millimeters and
formats as `"150cm"`, not `"15cm"`. -/
theorem length_display_counterexample :
    Length.display (Length.fromCm 150) = "150cm" ∧ ("150cm" : String) ≠ "15cm" := by
  exact ⟨rfl, by decide⟩

/-- C8, amended: formatting picks the largest exact unit; the spec's
examples corrected: 1500mm (from either constructor) formats as `"150cm"`,
551mm as `"551mm"`. -/
theorem length_display_spec :
    Length.display (Length.fromCm 150) = "150cm" ∧
    Length.display (Length.fromMm 1500) = "150cm" ∧
    Length.display (Length.fromMm 551) = "551mm" ∧
    Length.display (Length.fromMm 2000) = "2m" := by
  exact ⟨rfl, rfl, rfl, rfl⟩

/-- C10: `Length` parsing: a bare number is millimeters; fractional numbers
multiply by the unit factor and truncate toward zero; empty strings,
negative values, unknown units and values beyond `u32::MAX` millimeters are
rejected. -/
theorem length_fromStr_spec :
    Length.fromStr "10" = .ok (Length.fromMm 10) ∧
    Length.fromStr "1.5cm" = .ok (Length.fromMm 15) ∧
    Length.fromStr "0.5mm" = .ok (Length.fromMm 0) ∧
    Length.fromStr "" = .error (.parseError "Length" "Empty string") ∧
    Length.fromStr "-5mm" = .error (.parseError "Length" "Invalid number: ") ∧
    Length.fromStr "5km" = .error (.parseError "Length" "Unknown unit: km") ∧
    Length.fromStr "4294967296" =
      .error (.parseError "Length" "Length value too large") := by
  exact ⟨rfl, rfl, rfl, rfl, rfl, rfl, rfl⟩

/-- C7, counterexample: under `space-between` a single 10mm child in a 100mm
container is placed at `free_space / 2 = 45`, not at 50. -/
theorem spaceBetween_single_counterexample :
    mainAxisPositions 100 [10] .spaceBetween = [45] ∧ ((45 : ℚ) ≠ 50) := by
  constructor
  · show calculatePositionsOnAxis (100 - (10 + 0)) [10] .spaceBetween = [45]
    norm_num [calculatePositionsOnAxis]
  · norm_num

/-- C7, amended: `space-between` in a 100mm container: two 10mm children are
placed at `[0, 90]`; a single 10mm child is placed at `45` (the centered
fallback, `free_space / 2`). -/
theorem spaceBetween_boundary_spec :
    mainAxisPositions 100 [10, 10] .spaceBetween = [0, 90] ∧
    mainAxisPositions 100 [10] .spaceBetween = [45] := by
  constructor
  · show calculatePositionsOnAxis (100 - (10 + (10 + 0))) [10, 10] .spaceBetween
        = [0, 90]
    norm_num [calculatePositionsOnAxis, layoutFrom]
  · show calculatePositionsOnAxis (100 - (10 + 0)) [10] .spaceBetween = [45]
    norm_num [calculatePositionsOnAxis]

/-- C2, counterexample: in the top-down step, a node under a `Flex` parent
with main axis `x`, specified size `Length(10mm)` on `x` and flex-basis
`Length(99mm)`, computes `Length(99mm)` on `x`: the flex-basis is merged
after the specified size and, being a `Length`, overrides it. -/
theorem flexBasis_override_counterexample :
    (calculateSizeByParentStep ⟨.auto, .auto, .auto⟩ .flex .x
        (Style.mk ⟨.length ⟨10⟩, .auto, .auto⟩ .flex .flexStart
          ⟨.flexStart, .flexStart⟩ .reverseZ ⟨.auto, .auto, .auto⟩
          (.length ⟨99⟩))
        ⟨.auto, .auto, .auto⟩).x = .length ⟨99⟩ ∧
    SizeValue.length (⟨99⟩ : Length) ≠ .length ⟨10⟩ := by
  exact ⟨rfl, by decide⟩

/-- C2, amended: in the top-down step under a `Flex` parent, when the
specified size on the parent's main axis is `Length(L)`, the computed size
on that axis afterwards is `flexBasisResolved`: `Length(L)` only when the
flex-basis is `Auto`; a `Length(B)` flex-basis yields `Length(B)` and a
`Percentage(p)` flex-basis yields `Length(min(L * p, u32::MAX) / 100)` —
the flex-basis is merged last with the priority rule and therefore does
override an explicitly `Length`-valued specified size. -/
theorem flexBasis_merge_spec (pSize : SpaceSize) (pDir : FlexDirection)
    (spec : Style) (comp : SpaceSize) (L : Length)
    (h : spec.size.onAxis pDir.axis = .length L) :
    (calculateSizeByParentStep pSize .flex pDir spec comp).onAxis pDir.axis =
      flexBasisResolved spec.flexBasis L := by
  cases pDir <;>
    simp only [FlexDirection.axis, SpaceSize.onAxis] at h ⊢ <;>
    cases hb : spec.flexBasis <;>
    simp [calculateSizeByParentStep, FlexBasis.toSpaceSize, SpaceSize.new,
      SpaceSize.assignPriority, SizeValue.assignPriority,
      calculateDimensionSize, flexBasisResolved, h, hb]

/-- Witness for `flexBasis_merge_spec`: the hypothesis holds and the
conclusion evaluates at concrete inputs (main axis `x`, specified
`Length(10mm)`, flex-basis `Length(99mm)`). -/
theorem flexBasis_merge_spec_witness :
    ((Style.mk ⟨.length ⟨10⟩, .auto, .auto⟩ .flex .flexStart
        ⟨.flexStart, .flexStart⟩ .reverseZ ⟨.auto, .auto, .auto⟩
        (.length ⟨99⟩)).size.onAxis FlexDirection.x.axis =
      .length ⟨10⟩) ∧
    (calculateSizeByParentStep ⟨.auto, .auto, .auto⟩ .flex .x
        (Style.mk ⟨.length ⟨10⟩, .auto, .auto⟩ .flex .flexStart
          ⟨.flexStart, .flexStart⟩ .reverseZ ⟨.auto, .auto, .auto⟩
          (.length ⟨99⟩))
        ⟨.auto, .auto, .auto⟩).onAxis FlexDirection.x.axis =
      flexBasisResolved (.length ⟨99⟩) ⟨10⟩ := by
  refine ⟨rfl, ?_⟩
  exact flexBasis_merge_spec ⟨.auto, .auto, .auto⟩ .x _ ⟨.auto, .auto, .auto⟩
    ⟨10⟩ rfl

/-- C6: in the bottom-up step, a `Space` node with `display: Cube` raises
`CubeSizeError` exactly when its computed size still has an `Auto` axis, and
otherwise the step leaves its computed size unchanged (no computation is
performed on `Cube` nodes in this pass). -/
theorem cube_step_spec (pkg : String → Except RsmlError (Dim3 Length))
    (txt : String) (spec : Style) (comp : SpaceSize) (children : List RNode)
    (h : spec.display = .cube) :
    (calculateSizeByChildStep pkg .space txt spec comp children =
        .error .cubeSizeError ↔ comp.hasAuto = true) ∧
    (comp.hasAuto = false →
      calculateSizeByChildStep pkg .space txt spec comp children = .ok comp) := by
  cases hA : comp.hasAuto <;>
    simp [calculateSizeByChildStep, h, hA]

/-- Witness for `cube_step_spec`: a cube-styled node with an `Auto` axis at
concrete inputs. -/
theorem cube_step_spec_witness :
    ((Style.mk ⟨.length ⟨5⟩, .auto, .auto⟩ .cube .flexStart
        ⟨.flexStart, .flexStart⟩ .reverseZ ⟨.auto, .auto, .auto⟩
        .auto).display = Display.cube) ∧
    ((calculateSizeByChildStep pkgNone .space "t"
        (Style.mk ⟨.length ⟨5⟩, .auto, .auto⟩ .cube .flexStart
          ⟨.flexStart, .flexStart⟩ .reverseZ ⟨.auto, .auto, .auto⟩
          .auto)
        ⟨.length ⟨5⟩, .auto, .auto⟩ [] = .error .cubeSizeError ↔
      SpaceSize.hasAuto ⟨.length ⟨5⟩, .auto, .auto⟩ = true) ∧
    (SpaceSize.hasAuto ⟨.length ⟨5⟩, .auto, .auto⟩ = false →
      calculateSizeByChildStep pkgNone .space "t"
        (Style.mk ⟨.length ⟨5⟩, .auto, .auto⟩ .cube .flexStart
          ⟨.flexStart, .flexStart⟩ .reverseZ ⟨.auto, .auto, .auto⟩
          .auto)
        ⟨.length ⟨5⟩, .auto, .auto⟩ [] = .ok ⟨.length ⟨5⟩, .auto, .auto⟩)) := by
  refine ⟨rfl, ?_⟩
  exact cube_step_spec pkgNone "t" _ ⟨.length ⟨5⟩, .auto, .auto⟩ [] rfl

/-- Construction of a `body` element: `build_node_recursive` always
classifies it as a `Space` and gives it exactly the parsed injected body
style (`bodySpecStyle`), regardless of its own `style` attribute. -/
theorem buildNode_body (attrs : List (String × String)) (text : String)
    (children : List Element) :
    buildNodeRecursive (.mk "body" attrs text children) =
      .mk .space (getAttr attrs "id") "body" (String.mk (trimChars text.toList))
        bodySpecStyle Style.default.size (buildNodeList children) := by
  simp only [buildNodeRecursive]
  rfl

/-- The top-down step on the body node: its specified size is an explicit
10m on each axis and its flex-basis is `Auto`, so whatever the parent's
data and the previous computed size, the step yields 10m x 10m x 10m. -/
theorem bodyParentStep (pSize : SpaceSize) (pDisplay : Display)
    (pDir : FlexDirection) (comp : SpaceSize) :
    calculateSizeByParentStep pSize pDisplay pDir bodySpecStyle comp =
      tenMetersCube := by
  cases pDisplay
  · cases pDir <;> rfl
  · rfl

/-- C1, amended: for every constructed scene tree whose `body` node has a
parent (supplied as the parent's computed size, display and flex
direction), whenever the three size passes succeed the body node's computed
size is `Length(10m)` on each axis: the injected specified `size:10m 10m
10m` of the body style overrides the seeded 100m x 100m x 100m during Pass
1, because the priority merge lets a `Length` overwrite a `Length`. -/
theorem body_resolved_size_spec (pkg : String → Except RsmlError (Dim3 Length))
    (pSize : SpaceSize) (pDisplay : Display) (pDir : FlexDirection)
    (attrs : List (String × String)) (text : String) (children : List Element)
    (b' : RNode)
    (h : resolveSizesFromBody pkg pSize pDisplay pDir
        (buildNodeRecursive (.mk "body" attrs text children)) = .ok b') :
    b'.computedSize = tenMetersCube := by
  rw [buildNode_body] at h
  simp only [resolveSizesFromBody, RNode.setComputedSize,
    calculateSizeByParentRecursive, bodyParentStep,
    calculateSizeByChildRecursive] at h
  cases hcl : calculateSizeByChildList pkg
      (calculateSizeByParentList tenMetersCube bodySpecStyle.display
        bodySpecStyle.flexDirection (buildNodeList children)) with
  | error e =>
    rw [hcl] at h
    simp at h
  | ok cs2 =>
    rw [hcl] at h
    simp only [calculateSizeByChildStep] at h
    norm_num [SpaceSize.allLength, SizeValue.isLength, tenMetersCube,
      bodySpecStyle] at h
    rw [← h]
    simp only [calculateSizeByParentRecursive, RNode.computedSize]
    exact bodyParentStep pSize pDisplay pDir _

/-- C1, counterexample: a concrete constructed scene with a bare `body`
under a default parent resolves the body's computed size to 10m x 10m x
10m, not to the seeded 100m x 100m x 100m. -/
theorem body_size_counterexample :
    Except.map RNode.computedSize
        (resolveSizesFromBody pkgNone ⟨.auto, .auto, .auto⟩ .flex .reverseZ
          (buildNodeRecursive (.mk "body" [] "" []))) =
      .ok tenMetersCube ∧
    tenMetersCube ≠ ⟨hundredMeters, hundredMeters, hundredMeters⟩ := by
  constructor
  · rw [buildNode_body]
    simp only [resolveSizesFromBody, RNode.setComputedSize, buildNodeList,
      calculateSizeByParentRecursive, calculateSizeByParentList,
      calculateSizeByChildRecursive, calculateSizeByChildList,
      bodyParentStep]
    rfl
  · decide

/-- Witness for `body_resolved_size_spec` at a concrete scene: the pipeline
succeeds and yields the 10m cube. -/
theorem body_resolved_size_spec_witness :
    resolveSizesFromBody pkgNone ⟨.auto, .auto, .auto⟩ .flex .reverseZ
        (buildNodeRecursive (.mk "body" [] "" [])) =
      .ok (RNode.mk .space none "body" "" bodySpecStyle tenMetersCube []) ∧
    (RNode.mk .space none "body" "" bodySpecStyle tenMetersCube
        []).computedSize = tenMetersCube := by
  have h : resolveSizesFromBody pkgNone ⟨.auto, .auto, .auto⟩ .flex .reverseZ
      (buildNodeRecursive (.mk "body" [] "" [])) =
      .ok (RNode.mk .space none "body" "" bodySpecStyle tenMetersCube []) := by
    rw [buildNode_body]
    simp only [resolveSizesFromBody, RNode.setComputedSize, buildNodeList,
      calculateSizeByParentRecursive, calculateSizeByParentList,
      calculateSizeByChildRecursive, calculateSizeByChildList,
      bodyParentStep]
    rfl
  refine ⟨h, ?_⟩
  exact body_resolved_size_spec pkgNone ⟨.auto, .auto, .auto⟩ .flex .reverseZ
    [] "" [] _ h

/-- Folding child sizes along main axis `x` from a fully-`Length` seed
`(a, b, c)` with `a ≤ u32::MAX`: the saturating sum accumulates on `x` and
collapses to `min(a + Σ, u32::MAX)`; `max` accumulates on `y` and `z`. -/
theorem flexFold_mainX (ds : List (Dim3 Nat)) (a b c : Nat)
    (ha : a ≤ u32Max) :
    ds.foldl
        (fun t d =>
          flexFoldStep .x t ⟨.length ⟨d.x⟩, .length ⟨d.y⟩, .length ⟨d.z⟩⟩)
        ⟨.length ⟨a⟩, .length ⟨b⟩, .length ⟨c⟩⟩ =
      ⟨.length ⟨min (a + (ds.map (fun d => d.x)).sum) u32Max⟩,
       .length ⟨(ds.map (fun d => d.y)).foldl max b⟩,
       .length ⟨(ds.map (fun d => d.z)).foldl max c⟩⟩ := by
  induction ds generalizing a b c with
  | nil => simp [Nat.min_eq_left ha]
  | cons d ds' ih =>
    have hacc : flexFoldStep .x ⟨.length ⟨a⟩, .length ⟨b⟩, .length ⟨c⟩⟩
        ⟨.length ⟨d.x⟩, .length ⟨d.y⟩, .length ⟨d.z⟩⟩ =
        ⟨.length ⟨min (a + d.x) u32Max⟩, .length ⟨max b d.y⟩,
         .length ⟨max c d.z⟩⟩ := by
      simp [flexFoldStep, SizeValue.addSV, SizeValue.maxSV, Length.add,
        Length.maxLen]
    simp only [List.foldl_cons]
    rw [hacc, ih (min (a + d.x) u32Max) (max b d.y) (max c d.z) (by omega)]
    simp only [List.map_cons, List.foldl_cons, List.sum_cons]
    have h3 : min (min (a + d.x) u32Max + (ds'.map (fun d => d.x)).sum) u32Max
        = min (a + (d.x + (ds'.map (fun d => d.x)).sum)) u32Max := by omega
    rw [h3]

/-- Folding child sizes along main axis `y`. -/
theorem flexFold_mainY (ds : List (Dim3 Nat)) (a b c : Nat)
    (hb : b ≤ u32Max) :
    ds.foldl
        (fun t d =>
          flexFoldStep .y t ⟨.length ⟨d.x⟩, .length ⟨d.y⟩, .length ⟨d.z⟩⟩)
        ⟨.length ⟨a⟩, .length ⟨b⟩, .length ⟨c⟩⟩ =
      ⟨.length ⟨(ds.map (fun d => d.x)).foldl max a⟩,
       .length ⟨min (b + (ds.map (fun d => d.y)).sum) u32Max⟩,
       .length ⟨(ds.map (fun d => d.z)).foldl max c⟩⟩ := by
  induction ds generalizing a b c with
  | nil => simp [Nat.min_eq_left hb]
  | cons d ds' ih =>
    have hacc : flexFoldStep .y ⟨.length ⟨a⟩, .length ⟨b⟩, .length ⟨c⟩⟩
        ⟨.length ⟨d.x⟩, .length ⟨d.y⟩, .length ⟨d.z⟩⟩ =
        ⟨.length ⟨max a d.x⟩, .length ⟨min (b + d.y) u32Max⟩,
         .length ⟨max c d.z⟩⟩ := by
      simp [flexFoldStep, SizeValue.addSV, SizeValue.maxSV, Length.add,
        Length.maxLen]
    simp only [List.foldl_cons]
    rw [hacc, ih (max a d.x) (min (b + d.y) u32Max) (max c d.z) (by omega)]
    simp only [List.map_cons, List.foldl_cons, List.sum_cons]
    have h3 : min (min (b + d.y) u32Max + (ds'.map (fun d => d.y)).sum) u32Max
        = min (b + (d.y + (ds'.map (fun d => d.y)).sum)) u32Max := by omega
    rw [h3]

/-- Folding child sizes along main axis `z`. -/
theorem flexFold_mainZ (ds : List (Dim3 Nat)) (a b c : Nat)
    (hc : c ≤ u32Max) :
    ds.foldl
        (fun t d =>
          flexFoldStep .z t ⟨.length ⟨d.x⟩, .length ⟨d.y⟩, .length ⟨d.z⟩⟩)
        ⟨.length ⟨a⟩, .length ⟨b⟩, .length ⟨c⟩⟩ =
      ⟨.length ⟨(ds.map (fun d => d.x)).foldl max a⟩,
       .length ⟨(ds.map (fun d => d.y)).foldl max b⟩,
       .length ⟨min (c + (ds.map (fun d => d.z)).sum) u32Max⟩⟩ := by
  induction ds generalizing a b c with
  | nil => simp [Nat.min_eq_left hc]
  | cons d ds' ih =>
    have hacc : flexFoldStep .z ⟨.length ⟨a⟩, .length ⟨b⟩, .length ⟨c⟩⟩
        ⟨.length ⟨d.x⟩, .length ⟨d.y⟩, .length ⟨d.z⟩⟩ =
        ⟨.length ⟨max a d.x⟩, .length ⟨max b d.y⟩,
         .length ⟨min (c + d.z) u32Max⟩⟩ := by
      simp [flexFoldStep, SizeValue.addSV, SizeValue.maxSV, Length.add,
        Length.maxLen]
    simp only [List.foldl_cons]
    rw [hacc, ih (max a d.x) (max b d.y) (min (c + d.z) u32Max) (by omega)]
    simp only [List.map_cons, List.foldl_cons, List.sum_cons]
    have h3 : min (min (c + d.z) u32Max + (ds'.map (fun d => d.z)).sum) u32Max
        = min (c + (d.z + (ds'.map (fun d => d.z)).sum)) u32Max := by omega
    rw [h3]

/-- An axis of the accumulator holding a `Percentage` is never changed by
the fold: both `SizeValue::add` and `SizeValue::max` only act on a `Length`
target. -/
theorem flexFold_percentage (dir : FlexDirection) (a : Axis) (p : Percentage)
    (children : List RNode) :
    ∀ total : SpaceSize, total.onAxis a = .percentage p →
      (children.foldl
          (fun t ch => flexFoldStep dir t ch.computedSize) total).onAxis a =
        .percentage p := by
  induction children with
  | nil => intro t h; simpa using h
  | cons c cs ih =>
    intro t h
    simp only [List.foldl_cons]
    apply ih
    cases dir <;> cases a <;>
      simp_all [flexFoldStep, SpaceSize.onAxis, SizeValue.addSV,
        SizeValue.maxSV]

/-- C3, counterexample: the candidate size is not the children-only
sum/max — `cal_flex_child_size` seeds the fold with the node's own
specified size.  A `Flex` node with flex-direction `x`, specified size
`(Length(5mm), Auto, Auto)` (its computed size at that point,
`(Length(5mm), Auto, Auto)`, is not all-`Length`, so the fold runs) and two
children of resolved sizes `(10mm, 1mm, 1mm)` and `(20mm, 2mm, 2mm)` gets a
main-axis candidate of `5 + 10 + 20 = 35mm`, not the `10 + 20 = 30mm` the
claim demands. -/
theorem calFlexChildSize_seed_counterexample :
    SpaceSize.allLength ⟨.length ⟨5⟩, .auto, .auto⟩ = false ∧
    (calFlexChildSize
        (Style.mk ⟨.length ⟨5⟩, .auto, .auto⟩ .flex .flexStart
          ⟨.flexStart, .flexStart⟩ .x ⟨.auto, .auto, .auto⟩ .auto)
        [RNode.mk .item none "object" "a" Style.default
          ⟨.length ⟨10⟩, .length ⟨1⟩, .length ⟨1⟩⟩ [],
         RNode.mk .item none "object" "b" Style.default
          ⟨.length ⟨20⟩, .length ⟨2⟩, .length ⟨2⟩⟩ []]).onAxis
      (Style.mk ⟨.length ⟨5⟩, .auto, .auto⟩ .flex .flexStart
        ⟨.flexStart, .flexStart⟩ .x ⟨.auto, .auto, .auto⟩
        .auto).flexDirection.axis = .length ⟨35⟩ ∧
    SizeValue.length (⟨35⟩ : Length) ≠ .length ⟨10 + 20⟩ := by
  refine ⟨rfl, rfl, by decide⟩

/-- C3, amended: in the bottom-up pass, the candidate size folded in from
the children of a `Flex` node is seeded with the node's own specified size,
any `Auto` axis first floored to zero-length.  When the floored seed is
fully `Length`, with values `s` (each a `u32`, so at most `u32::MAX`): on
the axis matching the node's flex direction (forward or reverse alike) the
candidate is the seed value plus the sum of the children's resolved sizes,
saturating at `u32::MAX`; on each of the other two axes it is the maximum
of the seed value and the children's resolved sizes.  An axis whose
specified value is a `Percentage` is left as that `Percentage`: no children
are folded into it. -/
theorem calFlexChildSize_seeded_spec (spec : Style) (children : List RNode)
    (ds : List (Dim3 Nat))
    (hsz : children.map RNode.computedSize =
      ds.map (fun d => SpaceSize.mk (.length ⟨d.x⟩) (.length ⟨d.y⟩) (.length ⟨d.z⟩))) :
    (∀ s : Dim3 Nat,
      spec.size.createSelfByAutoToZero =
          ⟨.length ⟨s.x⟩, .length ⟨s.y⟩, .length ⟨s.z⟩⟩ →
      s.onAxis spec.flexDirection.axis ≤ u32Max →
      (calFlexChildSize spec children).onAxis spec.flexDirection.axis =
        .length ⟨min (s.onAxis spec.flexDirection.axis +
          (ds.map (fun d => d.onAxis spec.flexDirection.axis)).sum) u32Max⟩ ∧
      ∀ a : Axis, a ≠ spec.flexDirection.axis →
        (calFlexChildSize spec children).onAxis a =
          .length ⟨(ds.map (fun d => d.onAxis a)).foldl max (s.onAxis a)⟩) ∧
    (∀ (a : Axis) (p : Percentage), spec.size.onAxis a = .percentage p →
      (calFlexChildSize spec children).onAxis a = .percentage p) := by
  have h1 : calFlexChildSize spec children =
      (children.map RNode.computedSize).foldl
        (fun t sz => flexFoldStep spec.flexDirection t sz)
        spec.size.createSelfByAutoToZero :=
    (List.foldl_map RNode.computedSize
      (fun t sz => flexFoldStep spec.flexDirection t sz) children
      spec.size.createSelfByAutoToZero).symm
  constructor
  · intro s hseed hle
    have hfold : calFlexChildSize spec children =
        ds.foldl
          (fun t d =>
            flexFoldStep spec.flexDirection t
              ⟨.length ⟨d.x⟩, .length ⟨d.y⟩, .length ⟨d.z⟩⟩)
          ⟨.length ⟨s.x⟩, .length ⟨s.y⟩, .length ⟨s.z⟩⟩ := by
      rw [h1, hseed, hsz]
      exact List.foldl_map _ _ _ _
    cases hd : spec.flexDirection with
    | x =>
      rw [hd] at hfold
      rw [hd] at hle
      simp only [FlexDirection.axis, Dim3.onAxis] at hle ⊢
      rw [hfold, flexFold_mainX ds s.x s.y s.z hle]
      refine ⟨by simp [SpaceSize.onAxis], fun a ha => ?_⟩
      cases a
      · exact absurd rfl ha
      · simp [SpaceSize.onAxis, Dim3.onAxis]
      · simp [SpaceSize.onAxis, Dim3.onAxis]
    | y =>
      rw [hd] at hfold
      rw [hd] at hle
      simp only [FlexDirection.axis, Dim3.onAxis] at hle ⊢
      rw [hfold, flexFold_mainY ds s.x s.y s.z hle]
      refine ⟨by simp [SpaceSize.onAxis], fun a ha => ?_⟩
      cases a
      · simp [SpaceSize.onAxis, Dim3.onAxis]
      · exact absurd rfl ha
      · simp [SpaceSize.onAxis, Dim3.onAxis]
    | z =>
      rw [hd] at hfold
      rw [hd] at hle
      simp only [FlexDirection.axis, Dim3.onAxis] at hle ⊢
      rw [hfold, flexFold_mainZ ds s.x s.y s.z hle]
      refine ⟨by simp [SpaceSize.onAxis], fun a ha => ?_⟩
      cases a
      · simp [SpaceSize.onAxis, Dim3.onAxis]
      · simp [SpaceSize.onAxis, Dim3.onAxis]
      · exact absurd rfl ha
    | reverseX =>
      rw [hd] at hfold
      rw [hd] at hle
      rw [show flexFoldStep FlexDirection.reverseX = flexFoldStep FlexDirection.x
        from rfl] at hfold
      simp only [FlexDirection.axis, Dim3.onAxis] at hle ⊢
      rw [hfold, flexFold_mainX ds s.x s.y s.z hle]
      refine ⟨by simp [SpaceSize.onAxis], fun a ha => ?_⟩
      cases a
      · exact absurd rfl ha
      · simp [SpaceSize.onAxis, Dim3.onAxis]
      · simp [SpaceSize.onAxis, Dim3.onAxis]
    | reverseY =>
      rw [hd] at hfold
      rw [hd] at hle
      rw [show flexFoldStep FlexDirection.reverseY = flexFoldStep FlexDirection.y
        from rfl] at hfold
      simp only [FlexDirection.axis, Dim3.onAxis] at hle ⊢
      rw [hfold, flexFold_mainY ds s.x s.y s.z hle]
      refine ⟨by simp [SpaceSize.onAxis], fun a ha => ?_⟩
      cases a
      · simp [SpaceSize.onAxis, Dim3.onAxis]
      · exact absurd rfl ha
      · simp [SpaceSize.onAxis, Dim3.onAxis]
    | reverseZ =>
      rw [hd] at hfold
      rw [hd] at hle
      rw [show flexFoldStep FlexDirection.reverseZ = flexFoldStep FlexDirection.z
        from rfl] at hfold
      simp only [FlexDirection.axis, Dim3.onAxis] at hle ⊢
      rw [hfold, flexFold_mainZ ds s.x s.y s.z hle]
      refine ⟨by simp [SpaceSize.onAxis], fun a ha => ?_⟩
      cases a
      · simp [SpaceSize.onAxis, Dim3.onAxis]
      · simp [SpaceSize.onAxis, Dim3.onAxis]
      · exact absurd rfl ha
  · intro a p hp
    have hgoal : ((children.foldl
        (fun t ch => flexFoldStep spec.flexDirection t ch.computedSize)
        spec.size.createSelfByAutoToZero).onAxis a) = .percentage p := by
      apply flexFold_percentage
      cases a <;>
        simp_all [SpaceSize.createSelfByAutoToZero, SpaceSize.onAxis]
    exact hgoal

/-- Witness for `calFlexChildSize_seeded_spec`: the spec's own example — a
`Space` with `flex-direction: z`, an all-`Auto` specified size (seed
`(0, 0, 0)`) and two `Item` children of resolved sizes `(10mm, 20mm, 30mm)`
and `(5mm, 25mm, 40mm)` — satisfies the hypotheses, and the candidate size
comes out as `(10mm, 25mm, 70mm)`. -/
theorem calFlexChildSize_seeded_spec_witness :
    (List.map RNode.computedSize
        [RNode.mk .item none "object" "table_plane" Style.default
          ⟨.length ⟨10⟩, .length ⟨20⟩, .length ⟨30⟩⟩ [],
         RNode.mk .item none "object" "box_bottle" Style.default
          ⟨.length ⟨5⟩, .length ⟨25⟩, .length ⟨40⟩⟩ []] =
      List.map
        (fun d => SpaceSize.mk (.length ⟨d.x⟩) (.length ⟨d.y⟩) (.length ⟨d.z⟩))
        [Dim3.mk 10 20 30, Dim3.mk 5 25 40]) ∧
    ((Style.mk ⟨.auto, .auto, .auto⟩ .flex .flexStart ⟨.flexStart, .flexStart⟩
        .z ⟨.auto, .auto, .auto⟩ .auto).size.createSelfByAutoToZero =
      (⟨.length ⟨(Dim3.mk 0 0 0 : Dim3 Nat).x⟩,
        .length ⟨(Dim3.mk 0 0 0 : Dim3 Nat).y⟩,
        .length ⟨(Dim3.mk 0 0 0 : Dim3 Nat).z⟩⟩ : SpaceSize)) ∧
    (Dim3.mk 0 0 0 : Dim3 Nat).onAxis
        (Style.mk ⟨.auto, .auto, .auto⟩ .flex .flexStart
          ⟨.flexStart, .flexStart⟩ .z ⟨.auto, .auto, .auto⟩
          .auto).flexDirection.axis ≤ u32Max ∧
    ((calFlexChildSize
        (Style.mk ⟨.auto, .auto, .auto⟩ .flex .flexStart ⟨.flexStart, .flexStart⟩
          .z ⟨.auto, .auto, .auto⟩ .auto)
        [RNode.mk .item none "object" "table_plane" Style.default
          ⟨.length ⟨10⟩, .length ⟨20⟩, .length ⟨30⟩⟩ [],
         RNode.mk .item none "object" "box_bottle" Style.default
          ⟨.length ⟨5⟩, .length ⟨25⟩, .length ⟨40⟩⟩ []]).onAxis
        (Style.mk ⟨.auto, .auto, .auto⟩ .flex .flexStart ⟨.flexStart, .flexStart⟩
          .z ⟨.auto, .auto, .auto⟩ .auto).flexDirection.axis =
      .length ⟨min ((Dim3.mk 0 0 0 : Dim3 Nat).onAxis
          (Style.mk ⟨.auto, .auto, .auto⟩ .flex .flexStart
            ⟨.flexStart, .flexStart⟩ .z ⟨.auto, .auto, .auto⟩
            .auto).flexDirection.axis +
        (List.map
          (fun d =>
            Dim3.onAxis d
              (Style.mk ⟨.auto, .auto, .auto⟩ .flex .flexStart
                ⟨.flexStart, .flexStart⟩ .z ⟨.auto, .auto, .auto⟩
                .auto).flexDirection.axis)
          [Dim3.mk 10 20 30, Dim3.mk 5 25 40]).sum) u32Max⟩) ∧
    calFlexChildSize
        (Style.mk ⟨.auto, .auto, .auto⟩ .flex .flexStart ⟨.flexStart, .flexStart⟩
          .z ⟨.auto, .auto, .auto⟩ .auto)
        [RNode.mk .item none "object" "table_plane" Style.default
          ⟨.length ⟨10⟩, .length ⟨20⟩, .length ⟨30⟩⟩ [],
         RNode.mk .item none "object" "box_bottle" Style.default
          ⟨.length ⟨5⟩, .length ⟨25⟩, .length ⟨40⟩⟩ []] =
      ⟨.length ⟨10⟩, .length ⟨25⟩, .length ⟨70⟩⟩ := by
  refine ⟨rfl, rfl, by decide, ?_, rfl⟩
  exact ((calFlexChildSize_seeded_spec
    (Style.mk ⟨.auto, .auto, .auto⟩ .flex .flexStart ⟨.flexStart, .flexStart⟩
      .z ⟨.auto, .auto, .auto⟩ .auto)
    [RNode.mk .item none "object" "table_plane" Style.default
      ⟨.length ⟨10⟩, .length ⟨20⟩, .length ⟨30⟩⟩ [],
     RNode.mk .item none "object" "box_bottle" Style.default
      ⟨.length ⟨5⟩, .length ⟨25⟩, .length ⟨40⟩⟩ []]
    [Dim3.mk 10 20 30, Dim3.mk 5 25 40] rfl).1
    (Dim3.mk 0 0 0) rfl (by decide)).1
